import Mathlib

/-!
Shallow embedding of the SignSpeak single-page application (src/src/App.tsx).

The application is one React component.  Its reactive state fields become the
fields of `AppState`; every event handler / async function becomes a Lean
function from `AppState` to `AppState`.  External effects are passed in as
parameters:
  * the environment credential (`process.env.GEMINI_API_KEY`) as `key : Option String`,
    re-read on each call exactly as the source does;
  * the remote model call outcome as `CallResult` (successful optional text, or a
    thrown error message);
  * wall-clock timestamps (`new Date().toLocaleTimeString()`) as a string `t`;
  * the canvas 2d context availability (`getContext('2d')` possibly null) as `ctxOk`;
  * timer handles from `window.setInterval` as a `Nat` handle.

Asynchronous functions are modelled by their overall state effect: the
synchronous prefix of `startAnalysis` (arming the timer) happens before the
completion effects of the un-awaited immediate `analyzeFrame()` call, matching
the JavaScript event-loop ordering.
-/

/-- Severity of a debug-log entry: the `'info' | 'error' | 'success'` union in the source. -/
inductive LogType where
  | info
  | error
  | success
deriving Repr, DecidableEq

/-- One debug-log entry: `{time, msg, type}` in the source (`logs` state). -/
structure LogEntry where
  time : String
  msg : String
  type : LogType
deriving Repr, DecidableEq

/-- One history entry: `{text, time}` in the source (`history` state). -/
structure HistoryEntry where
  text : String
  time : String
deriving Repr, DecidableEq

/-- Outcome of one remote `genAI.models.generateContent` call:
either it resolves with an optional text (`response.text` may be undefined),
or it throws an error carrying a message string. -/
inductive CallResult where
  | ok (text : Option String)
  | err (msg : String)
deriving Repr, DecidableEq

/-- The component state: React `useState` fields plus the refs that carry
state (`analysisTimerRef`, the video element's bound stream).  `videoPresent`
and `canvasPresent` model `videoRef.current` / `canvasRef.current` being
non-null; `streamBound` models `videoRef.current.srcObject` being non-null and
`streamTracks` the stopped-flags of the tracks of that media stream. -/
structure AppState where
  isAnalyzing : Bool
  isCameraActive : Bool
  transcription : String
  error : Option String
  history : List HistoryEntry
  isModelLoading : Bool
  logs : List LogEntry
  showDebug : Bool
  analysisTimer : Option Nat
  videoPresent : Bool
  canvasPresent : Bool
  streamBound : Bool
  streamTracks : List Bool
deriving Repr, DecidableEq

/-- Whitespace test matching JavaScript `String.prototype.trim`'s common
whitespace characters (space, tab, newline, carriage return). -/
def isWS (c : Char) : Bool :=
  c = ' ' || c = '\t' || c = '\n' || c = '\r'

/-- JavaScript `String.prototype.trim`: strip leading and trailing whitespace. -/
def strTrim (s : String) : String :=
  String.mk (((s.data.dropWhile isWS).reverse.dropWhile isWS).reverse)

/-- Scan helper for substring search: does `pat` start at some position of the list? -/
def containsAux (pat : List Char) : List Char → Bool
  | [] => pat.isEmpty
  | c :: cs => pat.isPrefixOf (c :: cs) || containsAux pat cs

/-- JavaScript `String.prototype.includes`: `pat` occurs contiguously in `hay`. -/
def strContains (hay pat : String) : Bool :=
  containsAux pat.data hay.data

/-- The rate-limit signature test from `analyzeFrame`'s catch block:
`err.message?.includes("429") || err.message?.includes("RESOURCE_EXHAUSTED")`. -/
def isRateLimit (msg : String) : Bool :=
  strContains msg "429" || strContains msg "RESOURCE_EXHAUSTED"

/-- The user-facing message set on a rate-limit error. -/
def rateLimitMsg : String :=
  "Rate limit exceeded. Auto-analysis has been stopped to save your quota. Please wait a minute before trying again."

/-- `addLog`: prepend a `{time, msg, type}` entry and keep the first 50
(`setLogs(prev => [{ time, msg, type }, ...prev].slice(0, 50))`). -/
def addLog (s : AppState) (t msg : String) (ty : LogType) : AppState :=
  { s with logs := ({ time := t, msg := msg, type := ty } :: s.logs).take 50 }

/-- `stopAnalysis`: clear the interval timer handle (a no-op on the handle when
none is stored), clear the analyzing and loading flags, and log. -/
def stopAnalysis (s : AppState) (t : String) : AppState :=
  addLog { s with analysisTimer := none, isAnalyzing := false, isModelLoading := false }
    t "Auto-analysis stopped" LogType.info

/-- `analyzeFrame`: guarded by the video/canvas refs and the camera flag, then
by the presence of the API key (silent early returns).  Past the guards it
sets the loading flag, logs, captures and submits a frame (the remote outcome
is the `call` parameter; a null 2d context is an early return inside the try),
applies the response policy, handles errors, and resets the loading flag in
the finally block. -/
def analyzeFrame (s : AppState) (key : Option String) (ctxOk : Bool)
    (call : CallResult) (t : String) : AppState :=
  if s.videoPresent && s.canvasPresent && s.isCameraActive then
    if key.isSome then
      let s2 := addLog { s with isModelLoading := true } t "Analyzing frame..." LogType.info
      let s3 :=
        if ctxOk then
          match call with
          | CallResult.ok text =>
            let result := (text.map strTrim).getD ""
            let s4 := addLog s2 t ("AI Result: " ++ result)
              (if result = "No signs" then LogType.info else LogType.success)
            if result ≠ "" ∧ result ≠ "No signs" then
              { s4 with transcription := result,
                        history := ({ text := result, time := t } :: s4.history).take 10 }
            else s4
          | CallResult.err msg =>
            let s4 := addLog s2 t ("Analysis failed: " ++ msg) LogType.error
            if isRateLimit msg then
              stopAnalysis { s4 with error := some rateLimitMsg } t
            else s4
        else s2
      { s3 with isModelLoading := false }
    else s
  else s

/-- `startAnalysis`: a stored timer handle makes the whole call a no-op;
otherwise set the analyzing flag, fire one immediate (un-awaited)
`analyzeFrame`, store the interval handle and log.  The synchronous arming
completes before the async completion effects of the immediate call. -/
def startAnalysis (s : AppState) (key : Option String) (ctxOk : Bool)
    (call : CallResult) (t : String) (handle : Nat) : AppState :=
  if s.analysisTimer.isSome then s
  else
    analyzeFrame
      (addLog { s with isAnalyzing := true, analysisTimer := some handle }
        t "Auto-analysis started" LogType.info)
      key ctxOk call t

/-- `stopCamera`: when the video ref is present and a stream is bound, stop
every track of the stream, unbind it, clear the camera flag, log, and cascade
into `stopAnalysis`. -/
def stopCamera (s : AppState) (t : String) : AppState :=
  if s.videoPresent && s.streamBound then
    stopAnalysis
      (addLog { s with streamTracks := s.streamTracks.map (fun _ => true),
                       streamBound := false, isCameraActive := false }
        t "Camera stopped" LogType.info)
      t
  else s

/-- `startCamera`: log, clear the error banner, then either bind the acquired
stream (when the video ref is present) and set the camera flag, or surface the
`getUserMedia` failure.  `res` is the platform outcome: acquired track list or
error message. -/
def startCamera (s : AppState) (res : Except String (List Bool)) (t : String) : AppState :=
  let s1 := { addLog s t "Starting camera..." LogType.info with error := none }
  match res with
  | Except.ok tracks =>
    if s1.videoPresent then
      addLog { s1 with streamBound := true, streamTracks := tracks, isCameraActive := true }
        t "Camera active" LogType.success
    else s1
  | Except.error msg =>
    { addLog s1 t ("Camera error: " ++ msg) LogType.error with
        error := some ("Camera Error: " ++ msg) }

/-- `testAIConnection`: log, set the loading flag, attempt the probe (a
missing key throws "No API Key"), log success or log-and-surface failure, and
reset the loading flag in the finally block.  A successful response with
undefined text interpolates as the string "undefined". -/
def testAIConnection (s : AppState) (key : Option String)
    (call : CallResult) (t : String) : AppState :=
  let s2 := { addLog s t "Testing AI connection..." LogType.info with isModelLoading := true }
  let s3 :=
    match key with
    | none =>
      { addLog s2 t "AI Test Failed: No API Key" LogType.error with
          error := some "AI Test Failed: No API Key" }
    | some _ =>
      match call with
      | CallResult.ok text =>
        addLog s2 t ("AI Response: " ++ ((text.map strTrim).getD "undefined")) LogType.success
      | CallResult.err msg =>
        { addLog s2 t ("AI Test Failed: " ++ msg) LogType.error with
            error := some ("AI Test Failed: " ++ msg) }
  { s3 with isModelLoading := false }

/-- The mount-time API key verification effect: a present key logs success; a
missing key logs an error-severity entry and sets the error banner. -/
def verifyApiKey (s : AppState) (key : Option String) (t : String) : AppState :=
  match key with
  | some _ => addLog s t "API Key found in environment" LogType.success
  | none =>
    { addLog s t "API Key is missing from environment!" LogType.error with
        error := some "Gemini API Key is missing. Please add it to your environment variables." }

/-- The error banner's Dismiss button: `onClick={() => setError(null)}`. -/
def dismissError (s : AppState) : AppState :=
  { s with error := none }

/-- The debug console's clear button: `onClick={() => setLogs([])}`. -/
def clearLogs (s : AppState) : AppState :=
  { s with logs := [] }

/-- The debug console toggle: `onClick={() => setShowDebug(!showDebug)}`. -/
def toggleDebug (s : AppState) : AppState :=
  { s with showDebug := !s.showDebug }

/-- One user- or timer-driven operation of the application, with its external
inputs (credential, remote outcome, timestamp, timer handle, platform result). -/
inductive Op where
  | analyze (key : Option String) (ctxOk : Bool) (call : CallResult) (t : String)
  | startA (key : Option String) (ctxOk : Bool) (call : CallResult) (t : String) (handle : Nat)
  | stopA (t : String)
  | startCam (res : Except String (List Bool)) (t : String)
  | stopCam (t : String)
  | testConn (key : Option String) (call : CallResult) (t : String)
  | keyCheck (key : Option String) (t : String)
  | dismiss
  | clearL
  | toggleDbg
deriving Repr

/-- Dispatch one operation to its handler. -/
def step (s : AppState) : Op → AppState
  | Op.analyze key c call t => analyzeFrame s key c call t
  | Op.startA key c call t h => startAnalysis s key c call t h
  | Op.stopA t => stopAnalysis s t
  | Op.startCam res t => startCamera s res t
  | Op.stopCam t => stopCamera s t
  | Op.testConn key call t => testAIConnection s key call t
  | Op.keyCheck key t => verifyApiKey s key t
  | Op.dismiss => dismissError s
  | Op.clearL => clearLogs s
  | Op.toggleDbg => toggleDebug s

/-- Run a sequence of operations from a state. -/
def run (s : AppState) : List Op → AppState
  | [] => s
  | op :: ops => run (step s op) ops

/-- The initial component state (all `useState` initial values; refs mounted,
no stream bound, no timer). -/
def initState : AppState :=
  { isAnalyzing := false, isCameraActive := false, transcription := "",
    error := none, history := [], isModelLoading := false, logs := [],
    showDebug := true, analysisTimer := none, videoPresent := true,
    canvasPresent := true, streamBound := false, streamTracks := [] }

/-- Example state for concrete instantiations: the initial state with the
camera active (refs mounted, key-dependent guards to be chosen per call). -/
def exState : AppState := { initState with isCameraActive := true }

/-- Example armed state: camera active, a repeating timer stored. -/
def armedState : AppState :=
  { exState with analysisTimer := some 7, isAnalyzing := true }

/-- Example state with an active camera, a bound two-track stream and an armed loop. -/
def camState : AppState :=
  { exState with streamBound := true, streamTracks := [false, false],
                 analysisTimer := some 4, isAnalyzing := true }

/-- Example state carrying an error banner. -/
def errState : AppState := { initState with error := some "boom" }

/-- Example state whose debug log is at its 50-entry capacity. -/
def fullLogsState : AppState :=
  { initState with
      logs := List.replicate 50 { time := "t0", msg := "m0", type := LogType.info } }

/-- Example state whose history is at its 10-entry capacity. -/
def fullHistoryState : AppState :=
  { initState with
      isCameraActive := true,
      history := List.replicate 10 { text := "old", time := "t0" } }

/-- A list truncated to its first `n` elements when it has `n + 1` drops
exactly its last element. -/
lemma take_eq_dropLast_of_length {α : Type} (l : List α) (n : Nat) (h : l.length = n + 1) :
    l.take n = l.dropLast := by
  rw [List.dropLast_eq_take, h, Nat.add_sub_cancel]

/-- `addLog` never produces more than 50 log entries. -/
lemma addLog_logs_len_le (s : AppState) (t m : String) (ty : LogType) :
    (addLog s t m ty).logs.length ≤ 50 := by
  simp [addLog, List.length_take]

/-- `analyzeFrame` preserves the 50-entry log bound. -/
lemma analyzeFrame_logs_len_le (s : AppState) (key : Option String) (c : Bool)
    (r : CallResult) (t : String) (h : s.logs.length ≤ 50) :
    (analyzeFrame s key c r t).logs.length ≤ 50 := by
  unfold analyzeFrame
  split
  · split
    · dsimp only
      split
      · cases r with
        | ok text =>
          dsimp only
          split
          · simp [addLog, List.length_take]
          · simp [addLog, List.length_take]
        | err msg =>
          dsimp only
          split
          · simp [stopAnalysis, addLog, List.length_take]
          · simp [addLog, List.length_take]
      · simp [addLog, List.length_take]
    · exact h
  · exact h

/-- `stopAnalysis` respects the 50-entry log bound. -/
lemma stopAnalysis_logs_len_le (s : AppState) (t : String) :
    (stopAnalysis s t).logs.length ≤ 50 :=
  addLog_logs_len_le _ _ _ _

/-- `startAnalysis` preserves the 50-entry log bound. -/
lemma startAnalysis_logs_len_le (s : AppState) (key : Option String) (c : Bool)
    (r : CallResult) (t : String) (h' : Nat) (h : s.logs.length ≤ 50) :
    (startAnalysis s key c r t h').logs.length ≤ 50 := by
  unfold startAnalysis
  split
  · exact h
  · exact analyzeFrame_logs_len_le _ _ _ _ _ (addLog_logs_len_le _ _ _ _)

/-- `startCamera` respects the 50-entry log bound. -/
lemma startCamera_logs_len_le (s : AppState) (res : Except String (List Bool)) (t : String) :
    (startCamera s res t).logs.length ≤ 50 := by
  unfold startCamera
  cases res with
  | ok tracks =>
    dsimp only
    split
    · simp [addLog, List.length_take]
    · simp [addLog, List.length_take]
  | error msg => simp [addLog, List.length_take]

/-- `stopCamera` preserves the 50-entry log bound. -/
lemma stopCamera_logs_len_le (s : AppState) (t : String) (h : s.logs.length ≤ 50) :
    (stopCamera s t).logs.length ≤ 50 := by
  unfold stopCamera
  split
  · exact stopAnalysis_logs_len_le _ _
  · exact h

/-- `testAIConnection` respects the 50-entry log bound. -/
lemma testAIConnection_logs_len_le (s : AppState) (key : Option String)
    (r : CallResult) (t : String) : (testAIConnection s key r t).logs.length ≤ 50 := by
  cases key <;> cases r <;> simp [testAIConnection, addLog, List.length_take]

/-- `verifyApiKey` respects the 50-entry log bound. -/
lemma verifyApiKey_logs_len_le (s : AppState) (key : Option String) (t : String) :
    (verifyApiKey s key t).logs.length ≤ 50 := by
  cases key <;> simp [verifyApiKey, addLog, List.length_take]

/-- Every single operation preserves the 50-entry log bound. -/
lemma step_logs_len_le (s : AppState) (op : Op) (h : s.logs.length ≤ 50) :
    (step s op).logs.length ≤ 50 := by
  cases op with
  | analyze key c call t => exact analyzeFrame_logs_len_le _ _ _ _ _ h
  | startA key c call t h' => exact startAnalysis_logs_len_le _ _ _ _ _ _ h
  | stopA t => exact stopAnalysis_logs_len_le _ _
  | startCam res t => exact startCamera_logs_len_le _ _ _
  | stopCam t => exact stopCamera_logs_len_le _ _ h
  | testConn key call t => exact testAIConnection_logs_len_le _ _ _ _
  | keyCheck key t => exact verifyApiKey_logs_len_le _ _ _
  | dismiss => exact h
  | clearL => simp [step, clearLogs]
  | toggleDbg => exact h

/-- Any run of operations preserves the 50-entry log bound. -/
lemma run_logs_len_le (ops : List Op) (s : AppState) (h : s.logs.length ≤ 50) :
    (run s ops).logs.length ≤ 50 := by
  induction ops generalizing s with
  | nil => exact h
  | cons op ops ih => exact ih _ (step_logs_len_le s op h)

/-- `analyzeFrame` preserves the 10-entry history bound. -/
lemma analyzeFrame_history_len_le (s : AppState) (key : Option String) (c : Bool)
    (r : CallResult) (t : String) (h : s.history.length ≤ 10) :
    (analyzeFrame s key c r t).history.length ≤ 10 := by
  unfold analyzeFrame
  split
  · split
    · dsimp only
      split
      · cases r with
        | ok text =>
          dsimp only
          split
          · simp [addLog, List.length_take]
          · simpa [addLog] using h
        | err msg =>
          dsimp only
          split
          · simpa [stopAnalysis, addLog] using h
          · simpa [addLog] using h
      · simpa [addLog] using h
    · exact h
  · exact h

/-- `startAnalysis` preserves the 10-entry history bound. -/
lemma startAnalysis_history_len_le (s : AppState) (key : Option String) (c : Bool)
    (r : CallResult) (t : String) (h' : Nat) (h : s.history.length ≤ 10) :
    (startAnalysis s key c r t h').history.length ≤ 10 := by
  unfold startAnalysis
  split
  · exact h
  · exact analyzeFrame_history_len_le _ _ _ _ _ (by simpa [addLog] using h)

/-- `startCamera` never touches the history. -/
lemma startCamera_history (s : AppState) (res : Except String (List Bool)) (t : String) :
    (startCamera s res t).history = s.history := by
  unfold startCamera
  cases res with
  | ok tracks =>
    dsimp only
    split
    · simp [addLog]
    · simp [addLog]
  | error msg => simp [addLog]

/-- `stopCamera` never touches the history. -/
lemma stopCamera_history (s : AppState) (t : String) :
    (stopCamera s t).history = s.history := by
  unfold stopCamera
  split <;> simp [stopAnalysis, addLog]

/-- `testAIConnection` never touches the history. -/
lemma testAIConnection_history (s : AppState) (key : Option String)
    (r : CallResult) (t : String) : (testAIConnection s key r t).history = s.history := by
  cases key <;> cases r <;> simp [testAIConnection, addLog]

/-- Every single operation preserves the 10-entry history bound. -/
lemma step_history_len_le (s : AppState) (op : Op) (h : s.history.length ≤ 10) :
    (step s op).history.length ≤ 10 := by
  cases op with
  | analyze key c call t => exact analyzeFrame_history_len_le _ _ _ _ _ h
  | startA key c call t h' => exact startAnalysis_history_len_le _ _ _ _ _ _ h
  | stopA t => simpa [step, stopAnalysis, addLog] using h
  | startCam res t => simpa [step, startCamera_history] using h
  | stopCam t => simpa [step, stopCamera_history] using h
  | testConn key call t => simpa [step, testAIConnection_history] using h
  | keyCheck key t => cases key <;> simpa [step, verifyApiKey, addLog] using h
  | dismiss => exact h
  | clearL => exact h
  | toggleDbg => exact h

/-- Any run of operations preserves the 10-entry history bound. -/
lemma run_history_len_le (ops : List Op) (s : AppState) (h : s.history.length ≤ 10) :
    (run s ops).history.length ≤ 10 := by
  induction ops generalizing s with
  | nil => exact h
  | cons op ops ih => exact ih _ (step_history_len_le s op h)

/-- A successful model call never changes the timer handle or the analyzing flag. -/
lemma analyzeFrame_ok_timer_analyzing (s : AppState) (key : Option String) (c : Bool)
    (text : Option String) (t : String) :
    (analyzeFrame s key c (CallResult.ok text) t).analysisTimer = s.analysisTimer ∧
    (analyzeFrame s key c (CallResult.ok text) t).isAnalyzing = s.isAnalyzing := by
  unfold analyzeFrame
  split
  · split
    · dsimp only
      split
      · split
        · simp [addLog]
        · simp [addLog]
      · simp [addLog]
    · simp
  · simp

/-- Claim C1: for every model response that trims to a non-empty string other
than the sentinel "No signs", one analysis cycle sets the transcription to
that string and prepends a history entry carrying it and the call time, so
the new entry is the head of the history. -/
theorem analyzeFrame_nonsentinel_updates
    (s : AppState) (k t : String) (text : Option String)
    (hv : s.videoPresent = true) (hc : s.canvasPresent = true)
    (hcam : s.isCameraActive = true)
    (hne : (text.map strTrim).getD "" ≠ "")
    (hns : (text.map strTrim).getD "" ≠ "No signs") :
    (analyzeFrame s (some k) true (CallResult.ok text) t).transcription
        = (text.map strTrim).getD "" ∧
    (analyzeFrame s (some k) true (CallResult.ok text) t).history.head?
        = some { text := (text.map strTrim).getD "", time := t } := by
  simp [analyzeFrame, addLog, hv, hc, hcam, hne, hns]

/-- Claim C1 witness: the spec's example response "Hello, how are you?"
becomes the transcription and the head of the history. -/
theorem analyzeFrame_nonsentinel_updates_witness :
    (analyzeFrame exState (some "k") true
        (CallResult.ok (some "Hello, how are you?")) "10:00:00").transcription
      = "Hello, how are you?" ∧
    (analyzeFrame exState (some "k") true
        (CallResult.ok (some "Hello, how are you?")) "10:00:00").history.head?
      = some { text := "Hello, how are you?", time := "10:00:00" } := by
  have e : ((some "Hello, how are you?").map strTrim).getD "" = "Hello, how are you?" := by
    decide
  have h := analyzeFrame_nonsentinel_updates exState "k" "10:00:00"
    (some "Hello, how are you?") rfl rfl rfl (by decide) (by decide)
  rw [e] at h
  exact h

/-- Claim C2: a response that trims to exactly the sentinel "No signs" leaves
the transcription and the history unchanged, while the response is still
prepended to the debug log. -/
theorem analyzeFrame_sentinel_preserves
    (s : AppState) (k t : String) (text : Option String)
    (hv : s.videoPresent = true) (hc : s.canvasPresent = true)
    (hcam : s.isCameraActive = true)
    (hns : (text.map strTrim).getD "" = "No signs") :
    (analyzeFrame s (some k) true (CallResult.ok text) t).transcription = s.transcription ∧
    (analyzeFrame s (some k) true (CallResult.ok text) t).history = s.history ∧
    (analyzeFrame s (some k) true (CallResult.ok text) t).logs.head?
        = some { time := t, msg := "AI Result: No signs", type := LogType.info } := by
  simp [analyzeFrame, addLog, hv, hc, hcam, hns]

/-- Claim C2 witness: the sentinel response leaves transcription and history
untouched and lands at the head of the log. -/
theorem analyzeFrame_sentinel_preserves_witness :
    (analyzeFrame exState (some "k") true (CallResult.ok (some "No signs")) "t").transcription
      = exState.transcription ∧
    (analyzeFrame exState (some "k") true (CallResult.ok (some "No signs")) "t").history
      = exState.history ∧
    (analyzeFrame exState (some "k") true (CallResult.ok (some "No signs")) "t").logs.head?
      = some { time := "t", msg := "AI Result: No signs", type := LogType.info } :=
  analyzeFrame_sentinel_preserves exState "k" "t" (some "No signs") rfl rfl rfl (by decide)

/-- Claim C3: a thrown error whose message matches the rate-limit signature
(contains "429" or "RESOURCE_EXHAUSTED") while the loop is armed leaves the
loop Idle (timer cleared, analyzing flag false) with a non-null error
message; any non-matching error is logged while timer, analyzing flag and
error banner are left unchanged. -/
theorem analyzeFrame_error_policy
    (s : AppState) (k msg t : String) (n : Nat)
    (hv : s.videoPresent = true) (hc : s.canvasPresent = true)
    (hcam : s.isCameraActive = true) :
    (s.analysisTimer = some n → isRateLimit msg = true →
      (analyzeFrame s (some k) true (CallResult.err msg) t).analysisTimer = none ∧
      (analyzeFrame s (some k) true (CallResult.err msg) t).isAnalyzing = false ∧
      (analyzeFrame s (some k) true (CallResult.err msg) t).error = some rateLimitMsg) ∧
    (isRateLimit msg = false →
      (analyzeFrame s (some k) true (CallResult.err msg) t).analysisTimer = s.analysisTimer ∧
      (analyzeFrame s (some k) true (CallResult.err msg) t).isAnalyzing = s.isAnalyzing ∧
      (analyzeFrame s (some k) true (CallResult.err msg) t).error = s.error ∧
      (analyzeFrame s (some k) true (CallResult.err msg) t).logs.head?
        = some { time := t, msg := "Analysis failed: " ++ msg, type := LogType.error }) := by
  constructor
  · intro _ hrl
    simp [analyzeFrame, addLog, stopAnalysis, hv, hc, hcam, hrl]
  · intro hrl
    simp [analyzeFrame, addLog, hv, hc, hcam, hrl]

/-- Claim C3 witness: a "429" error in the armed example state idles the loop
and sets the rate-limit banner; a "boom" error leaves the loop armed. -/
theorem analyzeFrame_error_policy_witness :
    ((analyzeFrame armedState (some "k") true (CallResult.err "HTTP error 429") "t").analysisTimer
        = none ∧
      (analyzeFrame armedState (some "k") true (CallResult.err "HTTP error 429") "t").isAnalyzing
        = false ∧
      (analyzeFrame armedState (some "k") true (CallResult.err "HTTP error 429") "t").error
        = some rateLimitMsg) ∧
    ((analyzeFrame armedState (some "k") true (CallResult.err "boom") "t").analysisTimer
        = armedState.analysisTimer ∧
      (analyzeFrame armedState (some "k") true (CallResult.err "boom") "t").isAnalyzing
        = armedState.isAnalyzing ∧
      (analyzeFrame armedState (some "k") true (CallResult.err "boom") "t").error
        = armedState.error ∧
      (analyzeFrame armedState (some "k") true (CallResult.err "boom") "t").logs.head?
        = some { time := "t", msg := "Analysis failed: boom", type := LogType.error }) := by
  refine ⟨(analyzeFrame_error_policy armedState "k" "HTTP error 429" "t" 7
    rfl rfl rfl).1 rfl (by decide), ?_⟩
  have h := (analyzeFrame_error_policy armedState "k" "boom" "t" 7 rfl rfl rfl).2 (by decide)
  simpa using h

/-- Claim C4: the history never exceeds 10 entries along any run from the
initial state; a successful non-sentinel analysis prepends the new entry in
front of the first 9 prior entries (newest first), and on a full 10-entry
history the evicted entry is exactly the last (oldest) one. -/
theorem history_bounded_newest_first :
    (∀ ops : List Op, (run initState ops).history.length ≤ 10) ∧
    (∀ (s : AppState) (k t : String) (text : Option String),
      s.videoPresent = true → s.canvasPresent = true → s.isCameraActive = true →
      (text.map strTrim).getD "" ≠ "" → (text.map strTrim).getD "" ≠ "No signs" →
      (analyzeFrame s (some k) true (CallResult.ok text) t).history
        = { text := (text.map strTrim).getD "", time := t } :: s.history.take 9) ∧
    (∀ (s : AppState) (k t : String) (text : Option String),
      s.videoPresent = true → s.canvasPresent = true → s.isCameraActive = true →
      (text.map strTrim).getD "" ≠ "" → (text.map strTrim).getD "" ≠ "No signs" →
      s.history.length = 10 →
      (analyzeFrame s (some k) true (CallResult.ok text) t).history
        = { text := (text.map strTrim).getD "", time := t } :: s.history.dropLast) := by
  refine ⟨fun ops => run_history_len_le ops initState (by simp [initState]), ?_, ?_⟩
  · intro s k t text hv hc hcam hne hns
    simp [analyzeFrame, addLog, hv, hc, hcam, hne, hns]
  · intro s k t text hv hc hcam hne hns hlen
    simp [analyzeFrame, addLog, hv, hc, hcam, hne, hns,
      take_eq_dropLast_of_length s.history 9 hlen]

/-- Claim C4 witness: a concrete run stays within the bound, and adding to a
full 10-entry history evicts exactly the oldest entry. -/
theorem history_bounded_newest_first_witness :
    ((run initState [Op.dismiss]).history.length ≤ 10) ∧
    ((analyzeFrame fullHistoryState (some "k") true (CallResult.ok (some "Hi")) "t1").history
      = { text := "Hi", time := "t1" } :: fullHistoryState.history.dropLast) := by
  refine ⟨history_bounded_newest_first.1 [Op.dismiss], ?_⟩
  have h := history_bounded_newest_first.2.2 fullHistoryState "k" "t1" (some "Hi")
    rfl rfl rfl (by decide) (by decide) (by simp [fullHistoryState, initState])
  simpa using h

/-- Claim C5: calling `startAnalysis` with a stored timer handle is a
complete no-op; from Idle it arms the loop (analyzing flag set, the new
handle stored, a start log) and fires exactly one immediate analysis call,
and a successful immediate call leaves the loop armed with that handle. -/
theorem startAnalysis_armed_noop :
    (∀ (s : AppState) (key : Option String) (c : Bool) (r : CallResult) (t : String) (h n : Nat),
      s.analysisTimer = some n → startAnalysis s key c r t h = s) ∧
    (∀ (s : AppState) (key : Option String) (c : Bool) (r : CallResult) (t : String) (h : Nat),
      s.analysisTimer = none →
      startAnalysis s key c r t h =
        analyzeFrame
          (addLog { s with isAnalyzing := true, analysisTimer := some h }
            t "Auto-analysis started" LogType.info)
          key c r t) ∧
    (∀ (s : AppState) (key : Option String) (c : Bool) (text : Option String)
        (t : String) (h : Nat),
      s.analysisTimer = none →
      (startAnalysis s key c (CallResult.ok text) t h).analysisTimer = some h ∧
      (startAnalysis s key c (CallResult.ok text) t h).isAnalyzing = true) := by
  refine ⟨?_, ?_, ?_⟩
  · intro s key c r t h n hs; simp [startAnalysis, hs]
  · intro s key c r t h hs; simp [startAnalysis, hs]
  · intro s key c text t h hs
    have h2 := analyzeFrame_ok_timer_analyzing
      (addLog { s with isAnalyzing := true, analysisTimer := some h }
        t "Auto-analysis started" LogType.info) key c text t
    simp [startAnalysis, hs, addLog] at h2 ⊢
    exact h2

/-- Claim C5 witness: starting in the armed example state changes nothing;
starting from Idle arms the loop with the new handle. -/
theorem startAnalysis_armed_noop_witness :
    (startAnalysis armedState (some "k") true (CallResult.ok none) "t" 3 = armedState) ∧
    ((startAnalysis exState (some "k") true (CallResult.ok (some "Hi")) "t" 3).analysisTimer
        = some 3 ∧
      (startAnalysis exState (some "k") true (CallResult.ok (some "Hi")) "t" 3).isAnalyzing
        = true) :=
  ⟨startAnalysis_armed_noop.1 armedState (some "k") true (CallResult.ok none) "t" 3 7 rfl,
   startAnalysis_armed_noop.2.2 exState (some "k") true (some "Hi") "t" 3 rfl⟩

/-- Claim C6: stopping the camera while a stream is bound and the loop is
armed stops every track of the bound stream, unbinds it, clears the camera
flag, and idles the analysis loop (timer cleared, analyzing flag false). -/
theorem stopCamera_idles_loop
    (s : AppState) (t : String) (n : Nat)
    (hv : s.videoPresent = true) (hb : s.streamBound = true)
    (_harm : s.analysisTimer = some n) :
    (∀ b ∈ (stopCamera s t).streamTracks, b = true) ∧
    (stopCamera s t).streamBound = false ∧
    (stopCamera s t).isCameraActive = false ∧
    (stopCamera s t).analysisTimer = none ∧
    (stopCamera s t).isAnalyzing = false := by
  simp [stopCamera, stopAnalysis, addLog, hv, hb]

/-- Claim C6 witness: stopping the camera in the bound, armed example state
stops both tracks, unbinds and idles the loop. -/
theorem stopCamera_idles_loop_witness :
    (stopCamera camState "t").streamTracks = [true, true] ∧
    (stopCamera camState "t").streamBound = false ∧
    (stopCamera camState "t").isCameraActive = false ∧
    (stopCamera camState "t").analysisTimer = none ∧
    (stopCamera camState "t").isAnalyzing = false := by
  have h := stopCamera_idles_loop camState "t" 4 rfl rfl rfl
  exact ⟨by decide, h.2.1, h.2.2.1, h.2.2.2.1, h.2.2.2.2⟩

/-- Claim C7 counterexample: an analysis call fired with the camera active
but the API credential absent is a completely silent no-op — in particular
nothing at all is appended to the debug log, contradicting the claim that a
missing credential is logged as an error during such a call (the initial log
is empty and stays empty). -/
theorem analyzeFrame_missing_key_silent :
    analyzeFrame exState none true (CallResult.ok (some "x")) "t1" = exState ∧
    (analyzeFrame exState none true (CallResult.ok (some "x")) "t1").logs = [] := by
  constructor <;> decide

/-- Claim C7 (amended): an analysis call fired while the camera is not active
or the credential is absent is a silent no-op (no capture, no remote call, no
state change, nothing logged); the missing credential is instead logged as a
generic error with severity "error" — and the error banner set — by the
mount-time key verification. -/
theorem analyzeFrame_guard_noop_mount_logs :
    (∀ (s : AppState) (key : Option String) (c : Bool) (r : CallResult) (t : String),
      s.isCameraActive = false → analyzeFrame s key c r t = s) ∧
    (∀ (s : AppState) (c : Bool) (r : CallResult) (t : String),
      analyzeFrame s none c r t = s) ∧
    (∀ (s : AppState) (t : String),
      (verifyApiKey s none t).logs.head?
        = some { time := t, msg := "API Key is missing from environment!",
                 type := LogType.error } ∧
      (verifyApiKey s none t).error
        = some "Gemini API Key is missing. Please add it to your environment variables.") := by
  refine ⟨?_, ?_, ?_⟩
  · intro s key c r t h; simp [analyzeFrame, h]
  · intro s c r t; simp [analyzeFrame]
  · intro s t; simp [verifyApiKey, addLog]

/-- Claim C7 witness: with the camera inactive the call is a no-op even with
a key present, and the mount-time check with a missing key logs an
error-severity entry and sets the banner. -/
theorem analyzeFrame_guard_noop_mount_logs_witness :
    (analyzeFrame initState (some "k") true (CallResult.ok none) "t" = initState) ∧
    ((verifyApiKey exState none "t").logs.head?
        = some { time := "t", msg := "API Key is missing from environment!",
                 type := LogType.error } ∧
      (verifyApiKey exState none "t").error
        = some "Gemini API Key is missing. Please add it to your environment variables.") := by
  refine ⟨analyzeFrame_guard_noop_mount_logs.1 initState (some "k") true
    (CallResult.ok none) "t" rfl, ?_⟩
  exact analyzeFrame_guard_noop_mount_logs.2.2 exState "t"

/-- Claim C8: the debug log never exceeds 50 entries along any run from the
initial state; `addLog` prepends the new entry in front of the first 49
prior entries (newest first), and on a full 50-entry log the evicted entry is
exactly the last (oldest) one. -/
theorem logs_bounded_newest_first :
    (∀ ops : List Op, (run initState ops).logs.length ≤ 50) ∧
    (∀ (s : AppState) (t m : String) (ty : LogType),
      (addLog s t m ty).logs = { time := t, msg := m, type := ty } :: s.logs.take 49) ∧
    (∀ (s : AppState) (t m : String) (ty : LogType), s.logs.length = 50 →
      (addLog s t m ty).logs = { time := t, msg := m, type := ty } :: s.logs.dropLast) := by
  refine ⟨fun ops => run_logs_len_le ops initState (by simp [initState]), ?_, ?_⟩
  · intro s t m ty; simp [addLog]
  · intro s t m ty h
    simp [addLog, take_eq_dropLast_of_length s.logs 49 h]

/-- Claim C8 witness: a concrete run stays within the bound, and logging onto
a full 50-entry log evicts exactly the oldest entry. -/
theorem logs_bounded_newest_first_witness :
    ((run initState [Op.stopA "t"]).logs.length ≤ 50) ∧
    ((addLog fullLogsState "t1" "m1" LogType.error).logs
      = { time := "t1", msg := "m1", type := LogType.error } :: fullLogsState.logs.dropLast) := by
  exact ⟨logs_bounded_newest_first.1 [Op.stopA "t"],
    logs_bounded_newest_first.2.2 fullLogsState "t1" "m1" LogType.error
      (by simp [fullLogsState, initState])⟩

/-- Claim C9: dismissing the error from a state with a non-null error message
clears the error and leaves the history, the log and the transcription
unchanged. -/
theorem dismissError_clears_only_error
    (s : AppState) (m : String) (_h : s.error = some m) :
    (dismissError s).error = none ∧ (dismissError s).history = s.history ∧
    (dismissError s).logs = s.logs ∧ (dismissError s).transcription = s.transcription := by
  simp [dismissError]

/-- Claim C9 witness: dismissing the concrete "boom" banner clears only the
error field. -/
theorem dismissError_clears_only_error_witness :
    (dismissError errState).error = none ∧ (dismissError errState).history = errState.history ∧
    (dismissError errState).logs = errState.logs ∧
    (dismissError errState).transcription = errState.transcription :=
  dismissError_clears_only_error errState "boom" rfl

/-- Claim C10: an analysis call that passes its guards terminates with the
model-loading flag false whatever the remote outcome (including a null
canvas context and thrown errors), and the connectivity probe always
terminates with the flag false. -/
theorem modelLoading_reset_after_calls :
    (∀ (s : AppState) (k t : String) (c : Bool) (r : CallResult),
      s.videoPresent = true → s.canvasPresent = true → s.isCameraActive = true →
      (analyzeFrame s (some k) c r t).isModelLoading = false) ∧
    (∀ (s : AppState) (key : Option String) (r : CallResult) (t : String),
      (testAIConnection s key r t).isModelLoading = false) := by
  constructor
  · intro s k t c r hv hc hcam
    simp [analyzeFrame, hv, hc, hcam]
  · intro s key r t
    cases key <;> simp [testAIConnection]

/-- Claim C10 witness: a concrete successful analysis call and a concrete
probe both end with the loading flag false. -/
theorem modelLoading_reset_after_calls_witness :
    ((analyzeFrame exState (some "k") true (CallResult.ok (some "Hi")) "t").isModelLoading
        = false) ∧
    ((testAIConnection initState none (CallResult.ok none) "t").isModelLoading = false) :=
  ⟨modelLoading_reset_after_calls.1 exState "k" "t" true (CallResult.ok (some "Hi")) rfl rfl rfl,
   modelLoading_reset_after_calls.2 initState none (CallResult.ok none) "t"⟩
